import Mathlib

/-!
Shallow embedding of the plugin-loader service (`plg:ldr`) of
`src/core/hle/service/plgldr/plgldr.cpp`.

The service keeps a single shared `PluginLoaderContext` that is mutated by
the process lifecycle hooks (`OnProcessRun`, `OnProcessExit`,
`OnMemoryChanged`, `GetMemoryChangedHandle`) and by the request handlers
(`IsEnabled`, `SetEnabled`, `SetLoadSettings`, `GetPluginPath`, ...).

External collaborators (the filesystem scan, the file-existence test, the
user-path lookup and the 3GX image loader) are modelled as components of a
`HostEnv` record: the embedding is parametric in their behaviour.  Machine
integers (`u32`, `u64`) are modelled as `Nat`, reduced `% 2^32` / `% 2^64`
exactly where the C++ code casts.  C byte arrays (`char path[N]`,
`u32 config[M]`) are modelled as `List Nat` of fixed length.
-/

namespace PLGLDR

/-- One entry of a `FileUtil::ScanDirectoryTree` result (`FileUtil::FSTEntry`):
only the two fields `OnProcessRun` reads are modelled. -/
structure FSTEntry where
  isDirectory : Bool
  physicalName : String
deriving DecidableEq

/-- Model of `PluginLoaderContext::PluginLoadParameters`.  Modelled from the spec:
the header `plgldr.h` is not among the sources; the spec describes the
fields as `{ no_flash: bool, low_title_id: u32, path: bounded-length
string, config: fixed-size opaque byte block }`.  `path` and `config` are
fixed-capacity byte arrays, modelled as lists whose length is the
capacity. -/
structure PluginLoadParameters where
  no_flash : Bool
  low_title_Id : Nat
  path : List Nat
  config : List Nat
deriving DecidableEq

/-- Model of `PLG_LDR::PluginLoaderContext` (the shared mutable state). -/
structure PluginLoaderContext where
  is_enabled : Bool
  plugin_loaded : Bool
  plugin_path : String
  is_default_path : Bool
  use_user_load_parameters : Bool
  user_load_parameters : PluginLoadParameters
  memory_changed_handle : Nat
deriving DecidableEq

/-- The guest process data `OnProcessRun` reads: the two 4-byte words at
the code-segment base and at base+32, and `codeset->program_id` (a u64). -/
structure ProcessModel where
  code_word0 : Nat
  code_word32 : Nat
  program_id : Nat
deriving DecidableEq

/-- External host services used by the hooks.  `load_ok` is the success
oracle for `FileSys::Plugin3GXLoader::Load` (external to this file);
per the spec, a successful load sets `plugin_loaded` and a failed one
leaves the context's flag unchanged. -/
structure HostEnv where
  sdmc_dir : String
  scan_directory : String → List FSTEntry
  file_exists : String → Bool
  load_ok : String → Bool

/-- Model of `std::string::ends_with` on the code's byte strings. -/
def strEndsWith (s suf : String) : Bool :=
  List.isSuffixOf suf.data s.data

/-- Uppercase hex digit of `n < 16` (as in `fmt::format("{:016X}", ...)`). -/
def hexDigit (n : Nat) : Char :=
  if n < 10 then Char.ofNat (n + 48) else Char.ofNat (n + 55)

/-- Fixed-width big-endian hex rendering: `hexFixed w v` is the `w`
low hex digits of `v`, most significant first. -/
def hexFixed : Nat → Nat → List Char
  | 0, _ => []
  | w + 1, v => hexFixed w (v / 16) ++ [hexDigit (v % 16)]

/-- Model of `fmt::format("{:016X}", program_id)` for a u64 program id. -/
def hex16 (v : Nat) : String :=
  String.mk (hexFixed 16 (v % 2 ^ 64))

/-- The C-string content of a byte array: bytes up to the first NUL. -/
def cBytes (bs : List Nat) : List Nat :=
  bs.takeWhile (fun b => b ≠ 0)

/-- A byte list rendered as the `std::string` built from it. -/
def bytesToString (bs : List Nat) : String :=
  String.mk (bs.map Char.ofNat)

/-- The homebrew check of `OnProcessRun`: the word at the code-segment
base equals `0xEA000006` (`B #0x20`) and the word at base+32 equals
`0xE1A0400E` (`MOV R4, LR`). -/
def is_homebrew (p : ProcessModel) : Bool :=
  p.code_word0 % 2 ^ 32 == 0xEA000006 && p.code_word32 % 2 ^ 32 == 0xE1A0400E

/-- The user-load-parameter guard of `OnProcessRun`:
`use_user_load_parameters && low_title_Id == (u32)program_id && path[0]`. -/
def overrideMatch (ctx : PluginLoaderContext) (p : ProcessModel) : Bool :=
  ctx.use_user_load_parameters &&
    ctx.user_load_parameters.low_title_Id == p.program_id % 2 ^ 32 &&
    ctx.user_load_parameters.path.headD 0 != 0

/-- Effect of one `plugin_loader.Load(plgldr_context, process, kernel)`
call on the context.  Modelled from the spec: the loader itself lives in
`core/file_sys/plugin_3gx.cpp` (not among the sources); per the spec a
successful load sets `plugin_loaded = true` and a failure leaves it
unchanged.  Success is decided by the environment oracle on the path the
context carries. -/
def applyLoad (env : HostEnv) (ctx : PluginLoaderContext) : PluginLoaderContext :=
  if env.load_ok ctx.plugin_path then { ctx with plugin_loaded := true } else ctx

/-- The `for (const auto child : entry.children)` loop of `OnProcessRun`:
for each non-directory child whose name ends in `.3gx`, point the context
at it and attempt a load; return at the first success (C++ `return`),
keep scanning on failure.  Also returns the list of paths handed to
`Load`, in order. -/
def scanLoop (env : HostEnv) (ctx : PluginLoaderContext) :
    List FSTEntry → PluginLoaderContext × List String
  | [] => (ctx, [])
  | child :: rest =>
    if !child.isDirectory && strEndsWith child.physicalName ".3gx" then
      let ctx1 := { ctx with is_default_path := false, plugin_path := child.physicalName }
      if env.load_ok child.physicalName then
        ({ ctx1 with plugin_loaded := true }, [child.physicalName])
      else
        let r := scanLoop env ctx1 rest
        (r.1, child.physicalName :: r.2)
    else
      scanLoop env ctx rest

/-- Model of `PLG_LDR::OnProcessRun`.  Returns the new context together with the
list of file paths handed to `Plugin3GXLoader::Load`, in call order. -/
def OnProcessRun (env : HostEnv) (p : ProcessModel) (ctx : PluginLoaderContext) :
    PluginLoaderContext × List String :=
  if !ctx.is_enabled || ctx.plugin_loaded then (ctx, [])
  else if is_homebrew p then (ctx, [])
  else if overrideMatch ctx p then
    let plugin_file :=
      env.sdmc_dir ++ bytesToString (cBytes (ctx.user_load_parameters.path.drop 1))
    let ctx1 := { ctx with is_default_path := false, plugin_path := plugin_file }
    (applyLoad env ctx1, [plugin_file])
  else
    let plugin_root := env.sdmc_dir ++ "luma/plugins/"
    let plugin_tid := plugin_root ++ hex16 p.program_id
    let r := scanLoop env ctx (env.scan_directory plugin_tid)
    if r.1.plugin_loaded then r
    else
      let default_path := plugin_root ++ "default.3gx"
      if env.file_exists default_path then
        let ctx2 := { r.1 with is_default_path := true, plugin_path := default_path }
        (applyLoad env ctx2, r.2 ++ [default_path])
      else r

/-- Modelled from the spec: `FileSys::Plugin3GXLoader::_3GX_exe_load_addr`
lives in `core/file_sys/plugin_3gx.h` (not among the sources); the spec
only calls it "the plugin's known execution-entry address".  Its concrete
value is irrelevant to every claim; only the fixed negative offset `-0xC`
matters. -/
def exe_load_addr : Nat := 0x07000100

/-- Model of `PLG_LDR::OnProcessExit`.  `read32` is the guest-memory accessor
`kernel.memory.Read32`.  Returns the (unchanged) context together with
whether the critical "Checksum failed" diagnostic was emitted. -/
def OnProcessExit (read32 : Nat → Nat) (ctx : PluginLoaderContext) :
    PluginLoaderContext × Bool :=
  if ctx.plugin_loaded then
    (ctx, read32 (exe_load_addr - 0xC) == 0)
  else (ctx, false)

/-- The kernel-side state `GetMemoryChangedHandle` touches: how many
events have been created so far, and the handle-table allocator (which
handle value the `n`-th creation returns; the kernel never hands out the
null handle 0). -/
structure KernelState where
  events_created : Nat
  alloc : Nat → Nat

/-- Result of `GetMemoryChangedHandle`: the returned handle plus the new
context and kernel state. -/
structure HandleResult where
  handle : Nat
  ctx : PluginLoaderContext
  kernel : KernelState

/-- Model of `PLG_LDR::GetMemoryChangedHandle`: return the cached handle when one
exists; otherwise create one event, register it (one handle-table entry),
cache the handle and return it. -/
def GetMemoryChangedHandle (ctx : PluginLoaderContext) (k : KernelState) : HandleResult :=
  if ctx.memory_changed_handle != 0 then
    ⟨ctx.memory_changed_handle, ctx, k⟩
  else
    let h := k.alloc k.events_created
    ⟨h, { ctx with memory_changed_handle := h },
      { k with events_created := k.events_created + 1 }⟩

/-- Model of `PLG_LDR::OnMemoryChanged`.  `lookup_ok` models whether
`handle_table.Get<Kernel::Event>(handle)` still resolves.  Returns the
(unchanged) context and whether the event was signaled. -/
def OnMemoryChanged (lookup_ok : Nat → Bool) (ctx : PluginLoaderContext) :
    PluginLoaderContext × Bool :=
  if !ctx.plugin_loaded || ctx.memory_changed_handle == 0 then (ctx, false)
  else (ctx, lookup_ok ctx.memory_changed_handle)

/-- Status word pushed by a request handler. -/
inductive RStatus where
  | success
  | notAuthorized
  | notImplemented
deriving DecidableEq

/-- The process-wide service state the request handlers touch:
the shared context, the `allow_game_change` flag, and the persistent
`Settings::values.plugin_loader_enabled` value. -/
structure ServiceState where
  ctx : PluginLoaderContext
  allow_game_change : Bool
  settings_enabled : Bool
deriving DecidableEq

/-- Model of `PLG_LDR::IsEnabled`: pure read of `is_enabled`. -/
def IsEnabled (st : ServiceState) : ServiceState × RStatus × Bool :=
  (st, RStatus.success, st.ctx.is_enabled)

/-- Model of `PLG_LDR::SetEnabled`: the new state and the status word.  The popped
u32 is compared against 1 to form `enabled`. -/
def SetEnabled (st : ServiceState) (word : Nat) : ServiceState × RStatus :=
  let enabled := word == 1
  let can_change := enabled == st.ctx.is_enabled || st.allow_game_change
  if can_change then
    ({ st with ctx := { st.ctx with is_enabled := enabled }, settings_enabled := enabled },
      RStatus.success)
  else (st, RStatus.notAuthorized)

/-- The two writes `path.Read(dst, 0, min(sizeof(path)-1, size))` and
`dst[min(sizeof(path)-1, size)] = 0` on the `path` field of capacity
`cap` (= `sizeof(path)`). -/
def cstrWriteTrunc (cap : Nat) (field buf : List Nat) : List Nat :=
  let n := min (cap - 1) buf.length
  (buf.take n ++ field.drop n).set n 0

/-- The write `config.Read(dst, 0, min(sizeof(config), size))` on the
`config` field of capacity `cap` (= `sizeof(config)`). -/
def blockWriteTrunc (cap : Nat) (field buf : List Nat) : List Nat :=
  let n := min cap buf.length
  buf.take n ++ field.drop n

/-- Model of `PLG_LDR::SetLoadSettings`.  `pathCap` and `configCap` are the byte
capacities of the two fixed-size fields (their numeric values live in the
header, which is not among the sources; everything is proved for any
positive capacity).  `pathBuf`/`configBuf` are the mapped buffers'
contents, of arbitrary size. -/
def SetLoadSettings (pathCap configCap : Nat) (noFlashWord lowTitleId : Nat)
    (pathBuf configBuf : List Nat) (st : ServiceState) : ServiceState × RStatus :=
  let p : PluginLoadParameters :=
    { no_flash := noFlashWord == 1
      low_title_Id := lowTitleId % 2 ^ 32
      path := cstrWriteTrunc pathCap st.ctx.user_load_parameters.path pathBuf
      config := blockWriteTrunc configCap st.ctx.user_load_parameters.config configBuf }
  ({ st with ctx :=
      { st.ctx with use_user_load_parameters := true, user_load_parameters := p } },
    RStatus.success)

/-- Model of `PLG_LDR::DisplayErrorMessage`: logs, mutates nothing, succeeds. -/
def DisplayErrorMessage (st : ServiceState) : ServiceState × RStatus :=
  (st, RStatus.success)

/-- Modelled from the spec: `Kernel::CoreVersion(1, 0, 0).raw`, the
"fixed packed version value" returned by `GetPLGLDRVersion`
(`CoreVersion` lives in a header not among the sources; the packing is
major/minor/revision fields of the approved-kernel-version word). -/
def plgldr_version_raw : Nat := 1 * 2 ^ 24 + 0 * 2 ^ 16 + 0 * 2 ^ 8

/-- Model of `PLG_LDR::GetPLGLDRVersion`: pure read of the fixed version word. -/
def GetPLGLDRVersion (st : ServiceState) : ServiceState × RStatus × Nat :=
  (st, RStatus.success, plgldr_version_raw)

/-- Model of `PLG_LDR::GetArbiter`: always denied. -/
def GetArbiter (st : ServiceState) : ServiceState × RStatus :=
  (st, RStatus.notImplemented)

/-- Model of `std::string::find` of `pat` followed by `erase(it, pat.size())` when
found: remove the first occurrence of `pat`, scanning from the left. -/
def eraseFirstOcc (pat : List Char) : List Char → List Char
  | [] => []
  | c :: rest =>
    if List.isPrefixOf pat (c :: rest) then (c :: rest).drop pat.length
    else c :: eraseFirstOcc pat rest

/-- Model of `std::replace(begin, end, '\\', '/')`. -/
def replaceBackslashes (s : List Char) : List Char :=
  s.map (fun c => if c == '\\' then '/' else c)

/-- Model of `if (plugin_path.empty() || plugin_path[0] != '/') plugin_path = "/" + plugin_path`. -/
def ensureLeadingSlash (s : List Char) : String :=
  match s with
  | [] => String.mk ['/']
  | c :: rest => if c != '/' then String.mk ('/' :: c :: rest) else String.mk (c :: rest)

/-- The path normalization of `GetPluginPath`: strip the first occurrence
of the SD root, turn backslashes into slashes, force a leading slash. -/
def normalizePluginPath (root_sd plugin_path : String) : String :=
  ensureLeadingSlash (replaceBackslashes (eraseFirstOcc root_sd.data plugin_path.data))

/-- Model of `PLG_LDR::GetPluginPath`: given the mapped buffer's size, the handler
writes `min(path.GetSize(), plugin_path.length() + 1)` bytes of the
normalized path (with its NUL) and succeeds.  Returns the unchanged
state, the byte count written, the normalized string and the status. -/
def GetPluginPath (env : HostEnv) (bufSize : Nat) (st : ServiceState) :
    ServiceState × Nat × String × RStatus :=
  let s := normalizePluginPath env.sdmc_dir st.ctx.plugin_path
  (st, min bufSize (s.data.length + 1), s, RStatus.success)

/-- The `PLG_LDR` constructor's effect on the context:
`memory_changed_handle = 0; plugin_loaded = false;` (the remaining fields
keep whatever the static initializer / serialization left in them). -/
def initialContext (c : PluginLoaderContext) : PluginLoaderContext :=
  { c with memory_changed_handle := 0, plugin_loaded := false }

/-- The spec invariant: `plugin_loaded` implies `plugin_path` non-empty. -/
def ctxInv (ctx : PluginLoaderContext) : Prop :=
  ctx.plugin_loaded = true → ctx.plugin_path ≠ ""

instance (ctx : PluginLoaderContext) : Decidable (ctxInv ctx) := by
  unfold ctxInv; infer_instance

/-- The candidate-file filter of the discovery loop. -/
def isPluginCandidate (e : FSTEntry) : Bool :=
  !e.isDirectory && strEndsWith e.physicalName ".3gx"

/-- Names of the candidate files of a directory listing, in enumeration
order. -/
def pluginCandidates (children : List FSTEntry) : List String :=
  (children.filter isPluginCandidate).map (fun e => e.physicalName)

/-- The elements of `l` up to and including the first one `ok` accepts
(all of `l` when `ok` accepts none). -/
def takeThroughFirstSuccess (ok : String → Bool) : List String → List String
  | [] => []
  | x :: xs => if ok x then [x] else x :: takeThroughFirstSuccess ok xs

/-! ### Concrete sample values for the witnesses -/

/-- A staged override whose path bytes spell `"/p.3gx"` (NUL-padded). -/
def sampleParams : PluginLoadParameters :=
  ⟨false, 171, [47, 112, 46, 51, 103, 120, 0, 0], [0, 0, 0, 0]⟩

/-- A context with the plugin system enabled and nothing loaded. -/
def sampleCtx : PluginLoaderContext :=
  ⟨true, false, "", false, false, sampleParams, 0⟩

/-- A context with a staged override for program id `0xAB`. -/
def overrideCtx : PluginLoaderContext :=
  ⟨true, false, "", false, true, sampleParams, 0⟩

/-- A host with SD root `"sd/"`, one per-title plugin directory for
program id `0xAB`, an existing default plugin, and a loader that only
accepts `b.3gx`. -/
def sampleEnv : HostEnv :=
  ⟨"sd/",
    fun s =>
      if s = "sd/luma/plugins/00000000000000AB" then
        [⟨true, "sd/luma/plugins/00000000000000AB/dir.3gx"⟩,
         ⟨false, "sd/luma/plugins/00000000000000AB/a.3gx"⟩,
         ⟨false, "sd/luma/plugins/00000000000000AB/notes.txt"⟩,
         ⟨false, "sd/luma/plugins/00000000000000AB/b.3gx"⟩]
      else [],
    fun s => s = "sd/luma/plugins/default.3gx",
    fun s => s = "sd/luma/plugins/00000000000000AB/b.3gx"⟩

/-- A process whose code words match the two homebrew bit patterns. -/
def homebrewProcess : ProcessModel := ⟨0xEA000006, 0xE1A0400E, 0xAB⟩

/-- A process whose code words do not match the homebrew patterns. -/
def retailProcess : ProcessModel := ⟨0xE59F0000, 0xE59F1000, 0xAB⟩

/-- A kernel with no events yet whose allocator hands out handle 5. -/
def sampleKernel : KernelState := ⟨0, fun _ => 5⟩

/-- A service state whose `allow_game_change` is false. -/
def lockedState : ServiceState := ⟨sampleCtx, false, true⟩

/-- A service state whose `plugin_path` is the SD root followed by the
spec's backslash example path. -/
def examplePathState : ServiceState :=
  ⟨{ sampleCtx with plugin_path := "sd/luma\\plugins\\0004000000000000\\x.3gx" }, true, true⟩

/-! ### Helper lemmas -/

theorem append_ne_empty_of_left {a : String} (b : String) (h : a ≠ "") : a ++ b ≠ "" := by
  intro heq
  apply h
  have hd : (a ++ b).data = ("" : String).data := by rw [heq]
  rw [String.data_append] at hd
  exact String.ext (List.append_eq_nil.mp hd).1

theorem append_ne_empty_of_right (a : String) {b : String} (h : b ≠ "") : a ++ b ≠ "" := by
  intro heq
  apply h
  have hd : (a ++ b).data = ("" : String).data := by rw [heq]
  rw [String.data_append] at hd
  exact String.ext (List.append_eq_nil.mp hd).2

theorem strEndsWith_3gx_ne_empty {s : String} (h : strEndsWith s ".3gx" = true) :
    s ≠ "" := by
  intro heq
  rw [heq] at h
  exact absurd h (by decide)

theorem applyLoad_plugin_path (env : HostEnv) (ctx : PluginLoaderContext) :
    (applyLoad env ctx).plugin_path = ctx.plugin_path := by
  unfold applyLoad; split <;> rfl

theorem applyLoad_inv (env : HostEnv) (ctx : PluginLoaderContext)
    (h : ctx.plugin_path ≠ "") : ctxInv (applyLoad env ctx) := by
  unfold applyLoad ctxInv
  split <;> intro _ <;> exact h

theorem applyLoad_loaded_of_false (env : HostEnv) (ctx : PluginLoaderContext)
    (h : ctx.plugin_loaded = false) :
    (applyLoad env ctx).plugin_loaded = env.load_ok ctx.plugin_path := by
  unfold applyLoad
  split
  · rename_i hl; simp [hl]
  · rename_i hl; simp only [Bool.not_eq_true] at hl; rw [h, hl]

/-! ### C2: homebrew processes are never injected -/

/-- C2: for every process whose two code-segment words match the two fixed
homebrew bit patterns, `OnProcessRun` makes no load attempt and leaves the
context (in particular `plugin_loaded`) unchanged, so `plugin_loaded`
stays false for that launch. -/
theorem onProcessRun_homebrew_no_injection (env : HostEnv) (p : ProcessModel)
    (ctx : PluginLoaderContext) (h : is_homebrew p = true) :
    OnProcessRun env p ctx = (ctx, []) := by
  simp [OnProcessRun, h]

/-- Witness for C2: a concrete homebrew process is skipped. -/
theorem onProcessRun_homebrew_no_injection_witness :
    OnProcessRun sampleEnv homebrewProcess sampleCtx = (sampleCtx, []) :=
  onProcessRun_homebrew_no_injection sampleEnv homebrewProcess sampleCtx (by decide)

/-! ### C9: OnProcessExit is effect-free on the context -/

/-- C9: `OnProcessExit` never mutates the context, and the critical
"Checksum failed" diagnostic is emitted exactly when a plugin is loaded
and the guest status cell at `exe_load_addr - 0xC` reads zero. -/
theorem onProcessExit_frame (read32 : Nat → Nat) (ctx : PluginLoaderContext) :
    (OnProcessExit read32 ctx).1 = ctx ∧
    ((OnProcessExit read32 ctx).2 = true ↔
      ctx.plugin_loaded = true ∧ read32 (exe_load_addr - 0xC) = 0) := by
  unfold OnProcessExit
  refine ⟨by split <;> rfl, ?_⟩
  split
  · rename_i hl; simp [hl]
  · rename_i hl
    simp only [Bool.not_eq_true] at hl
    simp [hl]

/-! ### C7: GetMemoryChangedHandle caches its handle -/

/-- C7: two successive `GetMemoryChangedHandle` calls return the same
handle; the second call changes nothing (no second event is created); the
first call creates at most one event; and when a handle is already cached
the first call just returns it. -/
theorem getMemoryChangedHandle_cached (ctx : PluginLoaderContext) (k : KernelState)
    (halloc : k.alloc k.events_created ≠ 0) :
    (GetMemoryChangedHandle (GetMemoryChangedHandle ctx k).ctx
        (GetMemoryChangedHandle ctx k).kernel).handle =
      (GetMemoryChangedHandle ctx k).handle ∧
    (GetMemoryChangedHandle (GetMemoryChangedHandle ctx k).ctx
        (GetMemoryChangedHandle ctx k).kernel).ctx =
      (GetMemoryChangedHandle ctx k).ctx ∧
    (GetMemoryChangedHandle (GetMemoryChangedHandle ctx k).ctx
        (GetMemoryChangedHandle ctx k).kernel).kernel.events_created =
      (GetMemoryChangedHandle ctx k).kernel.events_created ∧
    (GetMemoryChangedHandle ctx k).kernel.events_created ≤ k.events_created + 1 ∧
    (ctx.memory_changed_handle ≠ 0 →
      (GetMemoryChangedHandle ctx k).handle = ctx.memory_changed_handle ∧
      (GetMemoryChangedHandle ctx k).kernel.events_created = k.events_created) := by
  by_cases h : ctx.memory_changed_handle = 0
  · have h1 : GetMemoryChangedHandle ctx k =
        ⟨k.alloc k.events_created, { ctx with memory_changed_handle := k.alloc k.events_created },
          { k with events_created := k.events_created + 1 }⟩ := by
      unfold GetMemoryChangedHandle
      simp [h]
    rw [h1]
    have h2 : GetMemoryChangedHandle
        { ctx with memory_changed_handle := k.alloc k.events_created }
        { k with events_created := k.events_created + 1 } =
        ⟨k.alloc k.events_created, { ctx with memory_changed_handle := k.alloc k.events_created },
          { k with events_created := k.events_created + 1 }⟩ := by
      unfold GetMemoryChangedHandle
      simp [halloc]
    rw [h2]
    exact ⟨rfl, rfl, rfl, Nat.le_refl _, fun hc => absurd h hc⟩
  · have h1 : GetMemoryChangedHandle ctx k = ⟨ctx.memory_changed_handle, ctx, k⟩ := by
      unfold GetMemoryChangedHandle
      simp [h]
    rw [h1]
    rw [h1]
    exact ⟨rfl, rfl, rfl, Nat.le_succ _, fun _ => ⟨rfl, rfl⟩⟩

/-- Witness for C7 at a concrete context with no cached handle. -/
theorem getMemoryChangedHandle_cached_witness :
    (GetMemoryChangedHandle (GetMemoryChangedHandle sampleCtx sampleKernel).ctx
        (GetMemoryChangedHandle sampleCtx sampleKernel).kernel).handle =
      (GetMemoryChangedHandle sampleCtx sampleKernel).handle ∧
    (GetMemoryChangedHandle (GetMemoryChangedHandle sampleCtx sampleKernel).ctx
        (GetMemoryChangedHandle sampleCtx sampleKernel).kernel).ctx =
      (GetMemoryChangedHandle sampleCtx sampleKernel).ctx ∧
    (GetMemoryChangedHandle (GetMemoryChangedHandle sampleCtx sampleKernel).ctx
        (GetMemoryChangedHandle sampleCtx sampleKernel).kernel).kernel.events_created =
      (GetMemoryChangedHandle sampleCtx sampleKernel).kernel.events_created ∧
    (GetMemoryChangedHandle sampleCtx sampleKernel).kernel.events_created ≤
      sampleKernel.events_created + 1 ∧
    (sampleCtx.memory_changed_handle ≠ 0 →
      (GetMemoryChangedHandle sampleCtx sampleKernel).handle =
        sampleCtx.memory_changed_handle ∧
      (GetMemoryChangedHandle sampleCtx sampleKernel).kernel.events_created =
        sampleKernel.events_created) :=
  getMemoryChangedHandle_cached sampleCtx sampleKernel (by decide)

/-! ### C4: SetEnabled authorization -/

/-- C4: a `SetEnabled` request is applied (and mirrored into the
persistent setting) exactly when it is a no-op or `allow_game_change`
holds; otherwise it returns "not authorized" and the whole service state
is unchanged, and a repeated rejected request is rejected again with no
state change. -/
theorem setEnabled_authorization (st : ServiceState) (word : Nat) :
    (((word == 1) == st.ctx.is_enabled || st.allow_game_change) = true →
      (SetEnabled st word).1.ctx.is_enabled = (word == 1) ∧
      (SetEnabled st word).1.settings_enabled = (word == 1) ∧
      (SetEnabled st word).2 = RStatus.success) ∧
    (((word == 1) == st.ctx.is_enabled || st.allow_game_change) = false →
      (SetEnabled st word).2 = RStatus.notAuthorized ∧
      (SetEnabled st word).1 = st ∧
      SetEnabled (SetEnabled st word).1 word = (st, RStatus.notAuthorized)) := by
  constructor
  · intro h
    unfold SetEnabled
    simp only [h]
    exact ⟨rfl, rfl, rfl⟩
  · intro h
    have h1 : SetEnabled st word = (st, RStatus.notAuthorized) := by
      unfold SetEnabled
      simp only [h]
      rfl
    rw [h1]
    exact ⟨rfl, rfl, h1⟩

/-- Witness for C4: with `allow_game_change = false`, `SetEnabled(false)`
on an enabled context is rejected twice without any state change. -/
theorem setEnabled_authorization_witness :
    (((0 == 1) == lockedState.ctx.is_enabled || lockedState.allow_game_change) = true →
      (SetEnabled lockedState 0).1.ctx.is_enabled = (0 == 1) ∧
      (SetEnabled lockedState 0).1.settings_enabled = (0 == 1) ∧
      (SetEnabled lockedState 0).2 = RStatus.success) ∧
    (((0 == 1) == lockedState.ctx.is_enabled || lockedState.allow_game_change) = false →
      (SetEnabled lockedState 0).2 = RStatus.notAuthorized ∧
      (SetEnabled lockedState 0).1 = lockedState ∧
      SetEnabled (SetEnabled lockedState 0).1 0 = (lockedState, RStatus.notAuthorized)) :=
  setEnabled_authorization lockedState 0

/-! ### C3 and C10: the staged-override branch of OnProcessRun -/

theorem overrideMatch_true (ctx : PluginLoaderContext) (p : ProcessModel)
    (hu : ctx.use_user_load_parameters = true)
    (ht : ctx.user_load_parameters.low_title_Id = p.program_id % 2 ^ 32)
    (hp : ctx.user_load_parameters.path.headD 0 ≠ 0) :
    overrideMatch ctx p = true := by
  have hp' : ctx.user_load_parameters.path.head?.getD 0 ≠ 0 := by simpa using hp
  unfold overrideMatch
  rw [hu, ht]
  simp [hp']

theorem onProcessRun_override_eq (env : HostEnv) (p : ProcessModel)
    (ctx : PluginLoaderContext)
    (he : ctx.is_enabled = true) (hl : ctx.plugin_loaded = false)
    (hh : is_homebrew p = false) (ho : overrideMatch ctx p = true) :
    OnProcessRun env p ctx =
      (applyLoad env
        { ctx with
            is_default_path := false,
            plugin_path := env.sdmc_dir ++ bytesToString (cBytes (ctx.user_load_parameters.path.drop 1)) },
        [env.sdmc_dir ++ bytesToString (cBytes (ctx.user_load_parameters.path.drop 1))]) := by
  unfold OnProcessRun
  rw [he, hl, hh, ho]
  simp

/-- C3: when a staged override is enabled, matches the launching process's
low title id and carries a non-empty path, `OnProcessRun` resolves that
path against the SD root, clears `is_default_path`, hands exactly that one
path to the loader (so per-title discovery and the default path are never
consulted), and this holds whether the load succeeds or fails. -/
theorem onProcessRun_override_one_shot (env : HostEnv) (p : ProcessModel)
    (ctx : PluginLoaderContext)
    (he : ctx.is_enabled = true) (hl : ctx.plugin_loaded = false)
    (hh : is_homebrew p = false)
    (hu : ctx.use_user_load_parameters = true)
    (ht : ctx.user_load_parameters.low_title_Id = p.program_id % 2 ^ 32)
    (hp : ctx.user_load_parameters.path.headD 0 ≠ 0) :
    (OnProcessRun env p ctx).2 =
      [env.sdmc_dir ++ bytesToString (cBytes (ctx.user_load_parameters.path.drop 1))] ∧
    (OnProcessRun env p ctx).1.is_default_path = false ∧
    (OnProcessRun env p ctx).1.plugin_path =
      env.sdmc_dir ++ bytesToString (cBytes (ctx.user_load_parameters.path.drop 1)) ∧
    (OnProcessRun env p ctx).1.plugin_loaded =
      env.load_ok
        (env.sdmc_dir ++ bytesToString (cBytes (ctx.user_load_parameters.path.drop 1))) := by
  rw [onProcessRun_override_eq env p ctx he hl hh (overrideMatch_true ctx p hu ht hp)]
  refine ⟨rfl, ?_, ?_, ?_⟩
  · unfold applyLoad; split <;> rfl
  · exact applyLoad_plugin_path env _
  · exact applyLoad_loaded_of_false env _ hl

/-- Witness for C3 at a concrete override context. -/
theorem onProcessRun_override_one_shot_witness :
    (OnProcessRun sampleEnv retailProcess overrideCtx).2 =
      [sampleEnv.sdmc_dir ++
        bytesToString (cBytes (overrideCtx.user_load_parameters.path.drop 1))] ∧
    (OnProcessRun sampleEnv retailProcess overrideCtx).1.is_default_path = false ∧
    (OnProcessRun sampleEnv retailProcess overrideCtx).1.plugin_path =
      sampleEnv.sdmc_dir ++
        bytesToString (cBytes (overrideCtx.user_load_parameters.path.drop 1)) ∧
    (OnProcessRun sampleEnv retailProcess overrideCtx).1.plugin_loaded =
      sampleEnv.load_ok
        (sampleEnv.sdmc_dir ++
          bytesToString (cBytes (overrideCtx.user_load_parameters.path.drop 1))) :=
  onProcessRun_override_one_shot sampleEnv retailProcess overrideCtx
    (by decide) (by decide) (by decide) (by decide) (by decide) (by decide)

/-- C10: in the override branch the path handed to the loader is the SD
root concatenated with the stored path bytes *after* the first one (up to
the terminating NUL): the first stored byte is only tested against zero
and never becomes part of the resolved file path. -/
theorem onProcessRun_override_drops_first_byte (env : HostEnv) (p : ProcessModel)
    (ctx : PluginLoaderContext)
    (he : ctx.is_enabled = true) (hl : ctx.plugin_loaded = false)
    (hh : is_homebrew p = false)
    (hu : ctx.use_user_load_parameters = true)
    (ht : ctx.user_load_parameters.low_title_Id = p.program_id % 2 ^ 32)
    (hp : ctx.user_load_parameters.path.headD 0 ≠ 0) :
    (OnProcessRun env p ctx).2 =
      [env.sdmc_dir ++
        bytesToString ((ctx.user_load_parameters.path.drop 1).takeWhile (fun b => b ≠ 0))] := by
  rw [onProcessRun_override_eq env p ctx he hl hh (overrideMatch_true ctx p hu ht hp)]
  rfl

/-! ### C1: the automatic-discovery branch of OnProcessRun -/

theorem pluginCandidates_cons_pos (child : FSTEntry) (rest : List FSTEntry)
    (hc : isPluginCandidate child = true) :
    pluginCandidates (child :: rest) = child.physicalName :: pluginCandidates rest := by
  simp [pluginCandidates, List.filter_cons, hc]

theorem pluginCandidates_cons_neg (child : FSTEntry) (rest : List FSTEntry)
    (hc : isPluginCandidate child = false) :
    pluginCandidates (child :: rest) = pluginCandidates rest := by
  simp [pluginCandidates, List.filter_cons, hc]

theorem takeThrough_cons_pos (ok : String → Bool) (x : String) (xs : List String)
    (h : ok x = true) : takeThroughFirstSuccess ok (x :: xs) = [x] := by
  simp [takeThroughFirstSuccess, h]

theorem takeThrough_cons_neg (ok : String → Bool) (x : String) (xs : List String)
    (h : ok x = false) :
    takeThroughFirstSuccess ok (x :: xs) = x :: takeThroughFirstSuccess ok xs := by
  simp [takeThroughFirstSuccess, h]

theorem scanLoop_attempts (env : HostEnv) (ctx : PluginLoaderContext)
    (children : List FSTEntry) :
    (scanLoop env ctx children).2 =
      takeThroughFirstSuccess env.load_ok (pluginCandidates children) := by
  induction children generalizing ctx with
  | nil => rfl
  | cons child rest ih =>
    simp only [scanLoop]
    by_cases hc : (!child.isDirectory && strEndsWith child.physicalName ".3gx") = true
    · rw [if_pos hc, pluginCandidates_cons_pos child rest hc]
      by_cases hl : env.load_ok child.physicalName = true
      · rw [if_pos hl, takeThrough_cons_pos _ _ _ hl]
      · have hl' : env.load_ok child.physicalName = false := by
          simpa using hl
        rw [if_neg hl, takeThrough_cons_neg _ _ _ hl']
        exact congrArg _ (ih _)
    · have hc' : isPluginCandidate child = false := by
        simpa [isPluginCandidate] using hc
      rw [if_neg hc, pluginCandidates_cons_neg child rest hc']
      exact ih ctx

theorem scanLoop_loaded (env : HostEnv) (ctx : PluginLoaderContext)
    (children : List FSTEntry) (h : ctx.plugin_loaded = false) :
    (scanLoop env ctx children).1.plugin_loaded =
      (pluginCandidates children).any env.load_ok := by
  induction children generalizing ctx with
  | nil => simpa [scanLoop, pluginCandidates] using h
  | cons child rest ih =>
    simp only [scanLoop]
    by_cases hc : (!child.isDirectory && strEndsWith child.physicalName ".3gx") = true
    · rw [if_pos hc, pluginCandidates_cons_pos child rest hc]
      by_cases hl : env.load_ok child.physicalName = true
      · rw [if_pos hl]
        simp [List.any_cons, hl]
      · have hl' : env.load_ok child.physicalName = false := by
          simpa using hl
        rw [if_neg hl]
        have := ih { ctx with is_default_path := false, plugin_path := child.physicalName } h
        simp [List.any_cons, hl', this]
    · have hc' : isPluginCandidate child = false := by
        simpa [isPluginCandidate] using hc
      rw [if_neg hc, pluginCandidates_cons_neg child rest hc']
      exact ih ctx h

theorem scanLoop_inv (env : HostEnv) (ctx : PluginLoaderContext)
    (children : List FSTEntry) (h : ctxInv ctx) :
    ctxInv (scanLoop env ctx children).1 := by
  induction children generalizing ctx with
  | nil => exact h
  | cons child rest ih =>
    simp only [scanLoop]
    by_cases hc : (!child.isDirectory && strEndsWith child.physicalName ".3gx") = true
    · have hne : child.physicalName ≠ "" := by
        apply strEndsWith_3gx_ne_empty
        simp only [Bool.and_eq_true] at hc
        exact hc.2
      by_cases hl : env.load_ok child.physicalName = true
      · rw [if_pos hc, if_pos hl]
        exact fun _ => hne
      · rw [if_pos hc, if_neg hl]
        exact ih _ (fun _ => hne)
    · rw [if_neg hc]
      exact ih ctx h

theorem onProcessRun_discovery_eq (env : HostEnv) (p : ProcessModel)
    (ctx : PluginLoaderContext)
    (he : ctx.is_enabled = true) (hl : ctx.plugin_loaded = false)
    (hh : is_homebrew p = false) (ho : overrideMatch ctx p = false) :
    OnProcessRun env p ctx =
      (let plugin_root := env.sdmc_dir ++ "luma/plugins/"
       let r := scanLoop env ctx (env.scan_directory (plugin_root ++ hex16 p.program_id))
       if r.1.plugin_loaded then r
       else
         let default_path := plugin_root ++ "default.3gx"
         if env.file_exists default_path then
           (applyLoad env { r.1 with is_default_path := true, plugin_path := default_path },
             r.2 ++ [default_path])
         else r) := by
  unfold OnProcessRun
  rw [he, hl, hh, ho]
  simp

/-- C1: in the automatic-discovery case, the paths handed to the loader
are exactly the non-directory `.3gx` entries of the per-title directory in
enumeration order up to and including the first successful one; when none
succeeds the single default path is attempted exactly when it exists; and
`plugin_loaded` ends true exactly when some candidate loaded or, failing
all of them, the default exists and loads. -/
theorem onProcessRun_discovery_order (env : HostEnv) (p : ProcessModel)
    (ctx : PluginLoaderContext)
    (he : ctx.is_enabled = true) (hl : ctx.plugin_loaded = false)
    (hh : is_homebrew p = false) (ho : overrideMatch ctx p = false) :
    (OnProcessRun env p ctx).2 =
      takeThroughFirstSuccess env.load_ok
        (pluginCandidates
          (env.scan_directory (env.sdmc_dir ++ "luma/plugins/" ++ hex16 p.program_id))) ++
      (if (pluginCandidates
            (env.scan_directory
              (env.sdmc_dir ++ "luma/plugins/" ++ hex16 p.program_id))).any env.load_ok then
        ([] : List String)
       else if env.file_exists (env.sdmc_dir ++ "luma/plugins/" ++ "default.3gx") then
        [env.sdmc_dir ++ "luma/plugins/" ++ "default.3gx"]
       else []) ∧
    (OnProcessRun env p ctx).1.plugin_loaded =
      ((pluginCandidates
          (env.scan_directory (env.sdmc_dir ++ "luma/plugins/" ++ hex16 p.program_id))).any
          env.load_ok ||
        env.file_exists (env.sdmc_dir ++ "luma/plugins/" ++ "default.3gx") &&
          env.load_ok (env.sdmc_dir ++ "luma/plugins/" ++ "default.3gx")) := by
  rw [onProcessRun_discovery_eq env p ctx he hl hh ho]
  have hsl := scanLoop_loaded env ctx
    (env.scan_directory (env.sdmc_dir ++ "luma/plugins/" ++ hex16 p.program_id)) hl
  have hsa := scanLoop_attempts env ctx
    (env.scan_directory (env.sdmc_dir ++ "luma/plugins/" ++ hex16 p.program_id))
  by_cases hany : (pluginCandidates
      (env.scan_directory (env.sdmc_dir ++ "luma/plugins/" ++ hex16 p.program_id))).any
        env.load_ok = true
  · simp only [hsl, hany, if_true, hsa]
    simp [hany]
  · have hany' : (pluginCandidates
        (env.scan_directory (env.sdmc_dir ++ "luma/plugins/" ++ hex16 p.program_id))).any
          env.load_ok = false := by
      simpa using hany
    simp only [hsl, hany', Bool.false_eq_true, if_false]
    by_cases hex : env.file_exists (env.sdmc_dir ++ "luma/plugins/" ++ "default.3gx") = true
    · simp only [hex, if_true]
      refine ⟨by rw [hsa], ?_⟩
      simp only [applyLoad]
      split
      · rename_i hload
        simp [hload]
      · rename_i hload
        simp only [Bool.not_eq_true] at hload
        simp [hload]
    · have hex' : env.file_exists (env.sdmc_dir ++ "luma/plugins/" ++ "default.3gx") = false := by
        simpa using hex
      simp only [hex', Bool.false_eq_true, if_false]
      refine ⟨?_, ?_⟩
      · rw [hsa]
        simp [hany', hex']
      · rw [hsl]
        simp [hany', hex']

/-- Witness for C1: in the sample host the loop skips the directory entry
and the `.txt` entry, fails on `a.3gx`, succeeds on `b.3gx` and stops
there without consulting the existing default. -/
theorem onProcessRun_discovery_order_witness :
    (OnProcessRun sampleEnv retailProcess sampleCtx).2 =
      takeThroughFirstSuccess sampleEnv.load_ok
        (pluginCandidates
          (sampleEnv.scan_directory
            (sampleEnv.sdmc_dir ++ "luma/plugins/" ++ hex16 retailProcess.program_id))) ++
      (if (pluginCandidates
            (sampleEnv.scan_directory
              (sampleEnv.sdmc_dir ++ "luma/plugins/" ++
                hex16 retailProcess.program_id))).any sampleEnv.load_ok then
        ([] : List String)
       else if sampleEnv.file_exists
          (sampleEnv.sdmc_dir ++ "luma/plugins/" ++ "default.3gx") then
        [sampleEnv.sdmc_dir ++ "luma/plugins/" ++ "default.3gx"]
       else []) ∧
    (OnProcessRun sampleEnv retailProcess sampleCtx).1.plugin_loaded =
      ((pluginCandidates
          (sampleEnv.scan_directory
            (sampleEnv.sdmc_dir ++ "luma/plugins/" ++
              hex16 retailProcess.program_id))).any sampleEnv.load_ok ||
        sampleEnv.file_exists (sampleEnv.sdmc_dir ++ "luma/plugins/" ++ "default.3gx") &&
          sampleEnv.load_ok (sampleEnv.sdmc_dir ++ "luma/plugins/" ++ "default.3gx")) :=
  onProcessRun_discovery_order sampleEnv retailProcess sampleCtx
    (by decide) (by decide) (by decide) (by decide)

/-- Witness for C10: the first path byte `47` (`'/'`) is dropped from the
resolved file. -/
theorem onProcessRun_override_drops_first_byte_witness :
    (OnProcessRun sampleEnv retailProcess overrideCtx).2 =
      [sampleEnv.sdmc_dir ++
        bytesToString
          ((overrideCtx.user_load_parameters.path.drop 1).takeWhile (fun b => b ≠ 0))] :=
  onProcessRun_override_drops_first_byte sampleEnv retailProcess overrideCtx
    (by decide) (by decide) (by decide) (by decide) (by decide) (by decide)

/-! ### C5: SetLoadSettings never writes out of bounds -/

theorem cstrWriteTrunc_eq (cap : Nat) (field buf : List Nat) :
    cstrWriteTrunc cap field buf =
      buf.take (min (cap - 1) buf.length) ++
        (field.drop (min (cap - 1) buf.length)).set 0 0 := by
  unfold cstrWriteTrunc
  have htl : (buf.take (min (cap - 1) buf.length)).length = min (cap - 1) buf.length := by
    rw [List.length_take]
    exact Nat.min_eq_left (Nat.min_le_right _ _)
  rw [List.set_append_right _ _ (le_of_eq htl), htl, Nat.sub_self]

/-- C5: `SetLoadSettings` keeps both fixed-capacity fields at their
capacity (no byte lands outside them), copies the path buffer truncated to
`capacity - 1` bytes, plants the NUL terminator at an index strictly below
the capacity, and succeeds — for path and config buffers of any size. -/
theorem setLoadSettings_bounds (pathCap configCap noFlashWord lowTitleId : Nat)
    (pathBuf configBuf : List Nat) (st : ServiceState)
    (hcap : 0 < pathCap)
    (hf : st.ctx.user_load_parameters.path.length = pathCap)
    (hcf : st.ctx.user_load_parameters.config.length = configCap) :
    (SetLoadSettings pathCap configCap noFlashWord lowTitleId pathBuf configBuf
        st).1.ctx.user_load_parameters.path.length = pathCap ∧
    (SetLoadSettings pathCap configCap noFlashWord lowTitleId pathBuf configBuf
        st).1.ctx.user_load_parameters.config.length = configCap ∧
    (SetLoadSettings pathCap configCap noFlashWord lowTitleId pathBuf configBuf
        st).1.ctx.user_load_parameters.path.take (min (pathCap - 1) pathBuf.length) =
      pathBuf.take (min (pathCap - 1) pathBuf.length) ∧
    (SetLoadSettings pathCap configCap noFlashWord lowTitleId pathBuf configBuf
        st).1.ctx.user_load_parameters.path[min (pathCap - 1) pathBuf.length]? = some 0 ∧
    min (pathCap - 1) pathBuf.length < pathCap ∧
    (SetLoadSettings pathCap configCap noFlashWord lowTitleId pathBuf configBuf
        st).2 = RStatus.success := by
  have hn : min (pathCap - 1) pathBuf.length < pathCap :=
    Nat.lt_of_le_of_lt (Nat.min_le_left _ _) (Nat.sub_lt hcap Nat.one_pos)
  have htl : (pathBuf.take (min (pathCap - 1) pathBuf.length)).length =
      min (pathCap - 1) pathBuf.length := by
    rw [List.length_take]
    exact Nat.min_eq_left (Nat.min_le_right _ _)
  have hpath : (SetLoadSettings pathCap configCap noFlashWord lowTitleId pathBuf configBuf
      st).1.ctx.user_load_parameters.path =
      cstrWriteTrunc pathCap st.ctx.user_load_parameters.path pathBuf := rfl
  have hconfig : (SetLoadSettings pathCap configCap noFlashWord lowTitleId pathBuf configBuf
      st).1.ctx.user_load_parameters.config =
      blockWriteTrunc configCap st.ctx.user_load_parameters.config configBuf := rfl
  refine ⟨?_, ?_, ?_, ?_, hn, rfl⟩
  · rw [hpath, cstrWriteTrunc_eq _ _ _, List.length_append, htl, List.length_set,
      List.length_drop, hf]
    omega
  · rw [hconfig]
    unfold blockWriteTrunc
    rw [List.length_append, List.length_take, List.length_drop, hcf]
    have : min configCap configBuf.length ≤ configCap := Nat.min_le_left _ _
    have : min configCap configBuf.length ≤ configBuf.length := Nat.min_le_right _ _
    omega
  · rw [hpath, cstrWriteTrunc_eq _ _ _]
    exact List.take_left' htl
  · rw [hpath, cstrWriteTrunc_eq _ _ _,
      List.getElem?_append_right (le_of_eq htl), htl, Nat.sub_self]
    apply List.getElem?_set_self
    rw [List.length_drop, hf]
    omega

/-- Witness for C5: a 10-byte path buffer against an 8-byte path field. -/
theorem setLoadSettings_bounds_witness :
    (SetLoadSettings 8 4 1 171 [1, 2, 3, 4, 5, 6, 7, 8, 9, 10] [9, 9]
        lockedState).1.ctx.user_load_parameters.path.length = 8 ∧
    (SetLoadSettings 8 4 1 171 [1, 2, 3, 4, 5, 6, 7, 8, 9, 10] [9, 9]
        lockedState).1.ctx.user_load_parameters.config.length = 4 ∧
    (SetLoadSettings 8 4 1 171 [1, 2, 3, 4, 5, 6, 7, 8, 9, 10] [9, 9]
        lockedState).1.ctx.user_load_parameters.path.take
          (min (8 - 1) ([1, 2, 3, 4, 5, 6, 7, 8, 9, 10] : List Nat).length) =
      ([1, 2, 3, 4, 5, 6, 7, 8, 9, 10] : List Nat).take
        (min (8 - 1) ([1, 2, 3, 4, 5, 6, 7, 8, 9, 10] : List Nat).length) ∧
    (SetLoadSettings 8 4 1 171 [1, 2, 3, 4, 5, 6, 7, 8, 9, 10] [9, 9]
        lockedState).1.ctx.user_load_parameters.path[
          min (8 - 1) ([1, 2, 3, 4, 5, 6, 7, 8, 9, 10] : List Nat).length]? = some 0 ∧
    min (8 - 1) ([1, 2, 3, 4, 5, 6, 7, 8, 9, 10] : List Nat).length < 8 ∧
    (SetLoadSettings 8 4 1 171 [1, 2, 3, 4, 5, 6, 7, 8, 9, 10] [9, 9]
        lockedState).2 = RStatus.success :=
  setLoadSettings_bounds 8 4 1 171 [1, 2, 3, 4, 5, 6, 7, 8, 9, 10] [9, 9] lockedState
    (by decide) (by decide) (by decide)

/-! ### C6: GetPluginPath normalization -/

theorem isPrefixOf_append_self (l r : List Char) : List.isPrefixOf l (l ++ r) = true := by
  induction l with
  | nil => simp
  | cons c cs ih => simp [List.isPrefixOf, ih]

theorem eraseFirstOcc_append_self (pat rest : List Char) :
    eraseFirstOcc pat (pat ++ rest) = rest := by
  cases pat with
  | nil =>
    cases rest with
    | nil => rfl
    | cons c tl => simp [eraseFirstOcc]
  | cons p ps =>
    show eraseFirstOcc (p :: ps) (p :: (ps ++ rest)) = rest
    unfold eraseFirstOcc
    have hpre2 : (p :: ps).isPrefixOf (p :: (ps ++ rest)) = true :=
      isPrefixOf_append_self (p :: ps) rest
    rw [if_pos hpre2, List.length_cons, List.drop_succ_cons, List.drop_left]

theorem normalizePluginPath_of_root (root rest : String) :
    normalizePluginPath root (root ++ rest) =
      ensureLeadingSlash (replaceBackslashes rest.data) := by
  unfold normalizePluginPath
  rw [String.data_append, eraseFirstOcc_append_self]

/-- C6: `GetPluginPath` mutates nothing, writes at most the caller
buffer's capacity (the normalized path plus its NUL, truncated to the
buffer size), and — whenever `plugin_path` extends the storage root —
returns that suffix with backslashes turned into forward slashes and a
leading slash forced; on the root followed by
`luma\plugins\0004000000000000\x.3gx` the result is
`/luma/plugins/0004000000000000/x.3gx`. -/
theorem getPluginPath_normalizes (env : HostEnv) (st : ServiceState) (bufSize : Nat)
    (rest : String) (hpre : st.ctx.plugin_path = env.sdmc_dir ++ rest) :
    (GetPluginPath env bufSize st).1 = st ∧
    (GetPluginPath env bufSize st).2.1 =
      min bufSize ((GetPluginPath env bufSize st).2.2.1.data.length + 1) ∧
    (GetPluginPath env bufSize st).2.1 ≤ bufSize ∧
    (GetPluginPath env bufSize st).2.2.1 = ensureLeadingSlash (replaceBackslashes rest.data) ∧
    (rest = "luma\\plugins\\0004000000000000\\x.3gx" →
      (GetPluginPath env bufSize st).2.2.1 = "/luma/plugins/0004000000000000/x.3gx") ∧
    (GetPluginPath env bufSize st).2.2.2 = RStatus.success := by
  have hnorm : normalizePluginPath env.sdmc_dir st.ctx.plugin_path =
      ensureLeadingSlash (replaceBackslashes rest.data) := by
    rw [hpre]
    exact normalizePluginPath_of_root _ _
  refine ⟨rfl, rfl, Nat.min_le_left _ _, hnorm, ?_, rfl⟩
  intro hr
  show normalizePluginPath env.sdmc_dir st.ctx.plugin_path = _
  rw [hnorm, hr]
  rfl

/-- Witness for C6 at the spec's concrete example path. -/
theorem getPluginPath_normalizes_witness :
    (GetPluginPath sampleEnv 64 examplePathState).1 = examplePathState ∧
    (GetPluginPath sampleEnv 64 examplePathState).2.1 =
      min 64 ((GetPluginPath sampleEnv 64 examplePathState).2.2.1.data.length + 1) ∧
    (GetPluginPath sampleEnv 64 examplePathState).2.1 ≤ 64 ∧
    (GetPluginPath sampleEnv 64 examplePathState).2.2.1 =
      ensureLeadingSlash
        (replaceBackslashes ("luma\\plugins\\0004000000000000\\x.3gx" : String).data) ∧
    (("luma\\plugins\\0004000000000000\\x.3gx" : String) =
        "luma\\plugins\\0004000000000000\\x.3gx" →
      (GetPluginPath sampleEnv 64 examplePathState).2.2.1 =
        "/luma/plugins/0004000000000000/x.3gx") ∧
    (GetPluginPath sampleEnv 64 examplePathState).2.2.2 = RStatus.success :=
  getPluginPath_normalizes sampleEnv examplePathState 64
    "luma\\plugins\\0004000000000000\\x.3gx" (by decide)

/-! ### C8: plugin_loaded implies plugin_path non-empty -/

theorem onProcessRun_inv (env : HostEnv) (p : ProcessModel) (ctx : PluginLoaderContext)
    (hsd : env.sdmc_dir ≠ "") (h : ctxInv ctx) :
    ctxInv (OnProcessRun env p ctx).1 := by
  unfold OnProcessRun
  split
  · exact h
  · split
    · exact h
    · split
      · exact applyLoad_inv env _ (append_ne_empty_of_left _ hsd)
      · have hsc := scanLoop_inv env ctx
          (env.scan_directory (env.sdmc_dir ++ "luma/plugins/" ++ hex16 p.program_id)) h
        dsimp only
        split
        · exact hsc
        · split
          · exact applyLoad_inv env _
              (append_ne_empty_of_right _ (by decide : ("default.3gx" : String) ≠ ""))
          · exact hsc

/-- C8: the invariant "`plugin_loaded` implies `plugin_path` non-empty"
holds after the constructor's initialization and is preserved by every
lifecycle hook and request handler of the service (for the hooks,
provided the SD root string is non-empty, which every load-attempt path
is built from). -/
theorem plugin_loaded_path_invariant (env : HostEnv) (p : ProcessModel)
    (ctx c0 : PluginLoaderContext) (st : ServiceState) (k : KernelState)
    (read32 : Nat → Nat) (lookup_ok : Nat → Bool)
    (pathCap configCap noFlashWord lowTitleId word bufSize : Nat)
    (pathBuf configBuf : List Nat)
    (hsd : env.sdmc_dir ≠ "") (hctx : ctxInv ctx) (hst : ctxInv st.ctx) :
    ctxInv (initialContext c0) ∧
    ctxInv (OnProcessRun env p ctx).1 ∧
    ctxInv (OnProcessExit read32 ctx).1 ∧
    ctxInv (OnMemoryChanged lookup_ok ctx).1 ∧
    ctxInv (GetMemoryChangedHandle ctx k).ctx ∧
    ctxInv (IsEnabled st).1.ctx ∧
    ctxInv (SetEnabled st word).1.ctx ∧
    ctxInv (SetLoadSettings pathCap configCap noFlashWord lowTitleId pathBuf configBuf
      st).1.ctx ∧
    ctxInv (DisplayErrorMessage st).1.ctx ∧
    ctxInv (GetPLGLDRVersion st).1.ctx ∧
    ctxInv (GetArbiter st).1.ctx ∧
    ctxInv (GetPluginPath env bufSize st).1.ctx := by
  refine ⟨?_, onProcessRun_inv env p ctx hsd hctx, ?_, ?_, ?_, hst, ?_, hst, hst, hst, hst, hst⟩
  · intro hld
    exact absurd hld (by simp [initialContext])
  · unfold OnProcessExit
    split <;> exact hctx
  · unfold OnMemoryChanged
    split <;> exact hctx
  · unfold GetMemoryChangedHandle
    split <;> exact hctx
  · unfold SetEnabled
    dsimp only
    split <;> exact hst

/-- Witness for C8 at concrete context, service state and host values. -/
theorem plugin_loaded_path_invariant_witness :
    ctxInv (initialContext overrideCtx) ∧
    ctxInv (OnProcessRun sampleEnv retailProcess sampleCtx).1 ∧
    ctxInv (OnProcessExit (fun a => a) sampleCtx).1 ∧
    ctxInv (OnMemoryChanged (fun _ => true) sampleCtx).1 ∧
    ctxInv (GetMemoryChangedHandle sampleCtx sampleKernel).ctx ∧
    ctxInv (IsEnabled lockedState).1.ctx ∧
    ctxInv (SetEnabled lockedState 1).1.ctx ∧
    ctxInv (SetLoadSettings 8 4 1 171 [1, 2, 3] [9] lockedState).1.ctx ∧
    ctxInv (DisplayErrorMessage lockedState).1.ctx ∧
    ctxInv (GetPLGLDRVersion lockedState).1.ctx ∧
    ctxInv (GetArbiter lockedState).1.ctx ∧
    ctxInv (GetPluginPath sampleEnv 16 lockedState).1.ctx :=
  plugin_loaded_path_invariant sampleEnv retailProcess sampleCtx overrideCtx lockedState
    sampleKernel (fun a => a) (fun _ => true) 8 4 1 171 1 16 [1, 2, 3] [9]
    (by decide) (by decide) (by decide)

end PLGLDR
